import Mathlib

/-!
Verification of the `web-memory` HTTP service (src/main.rs).

The embedding models the request-handling core: the two greeting handlers
(`handle`, `handle_with_body`), the record store handlers (`create_post`,
`find_post`), the router (`route`), and the library behaviour they rely on
(tera rendering of the two fixed templates, UUID parsing/printing, and the
urlencoded form decoder with borrowed string fields).  SQLite is modelled as
the list of rows of the `posts` table; the tokio mutex around the connection
is modelled by an event trace recording lock acquisition and release.
Rust panics (`unwrap` on a failing operation) are modelled by `Option.none`.
-/

/-- hexChar n is the lowercase hexadecimal digit of n % 16, as printed by
the uuid crate's hyphenated formatter. -/
def hexChar (n : Nat) : Char :=
  if n % 16 < 10 then Char.ofNat ('0'.toNat + n % 16)
  else Char.ofNat ('a'.toNat + (n % 16 - 10))

/-- isHexDigit c is true when c is an ASCII hexadecimal digit (either case),
as accepted by Uuid::parse_str. -/
def isHexDigit (c : Char) : Bool :=
  ('0' ≤ c ∧ c ≤ '9') ∨ ('a' ≤ c ∧ c ≤ 'f') ∨ ('A' ≤ c ∧ c ≤ 'F')

/-- hexVal c is the numeric value of a hexadecimal digit character. -/
def hexVal (c : Char) : Nat :=
  if c ≤ '9' then c.toNat - '0'.toNat
  else if c ≤ 'F' then c.toNat - 'A'.toNat + 10
  else c.toNat - 'a'.toNat + 10

/-- toHexBE k n is the big-endian k-digit lowercase hexadecimal rendering of
n (mod 16^k). -/
def toHexBE : Nat → Nat → List Char
  | 0, _ => []
  | k + 1, n => toHexBE k (n / 16) ++ [hexChar (n % 16)]

theorem length_toHexBE (k n : Nat) : (toHexBE k n).length = k := by
  induction k generalizing n with
  | zero => rfl
  | succ k ih => simp [toHexBE, ih]

theorem hexVal_hexChar_lt : ∀ m < 16, hexVal (hexChar m) = m := by decide

theorem isHexDigit_hexChar_lt : ∀ m < 16, isHexDigit (hexChar m) = true := by decide

theorem hexChar_mod (n : Nat) : hexChar n = hexChar (n % 16) := by
  have e : n % 16 % 16 = n % 16 := by omega
  simp only [hexChar, e]

theorem hexVal_hexChar (n : Nat) : hexVal (hexChar n) = n % 16 := by
  rw [hexChar_mod, hexVal_hexChar_lt (n % 16) (by omega)]

theorem isHexDigit_hexChar (n : Nat) : isHexDigit (hexChar n) = true := by
  rw [hexChar_mod, isHexDigit_hexChar_lt (n % 16) (by omega)]

/-- hexToNatAux a cs accumulates the value of the hexadecimal digit string cs
onto a, most significant digit first. -/
def hexToNatAux : Nat → List Char → Nat
  | a, [] => a
  | a, c :: cs => hexToNatAux (a * 16 + hexVal c) cs

/-- allHex cs is true when every character of cs is a hexadecimal digit. -/
def allHex (cs : List Char) : Bool := cs.all isHexDigit

/-- fromHexAll cs parses cs as a string of hexadecimal digits, as the uuid
crate does for the 32-character simple format. -/
def fromHexAll (cs : List Char) : Option Nat :=
  if allHex cs then some (hexToNatAux 0 cs) else none

theorem hexToNatAux_append (xs ys : List Char) (a : Nat) :
    hexToNatAux a (xs ++ ys) = hexToNatAux (hexToNatAux a xs) ys := by
  induction xs generalizing a with
  | nil => rfl
  | cons c cs ih => simp [hexToNatAux, ih]

theorem hexToNatAux_toHexBE (k : Nat) :
    ∀ n a : Nat, hexToNatAux a (toHexBE k n) = a * 16 ^ k + n % 16 ^ k := by
  induction k with
  | zero => intro n a; simp [toHexBE, hexToNatAux, Nat.mod_one]
  | succ k ih =>
    intro n a
    rw [toHexBE, hexToNatAux_append, ih]
    show hexToNatAux _ [hexChar (n % 16)] = _
    rw [show ∀ b c, hexToNatAux b [c] = b * 16 + hexVal c from fun _ _ => rfl]
    rw [hexVal_hexChar]
    have e : n % 16 % 16 = n % 16 := by omega
    have hm : n % (16 * 16 ^ k) = n % 16 + 16 * (n / 16 % 16 ^ k) := Nat.mod_mul
    have hp : (16 : Nat) ^ (k + 1) = 16 * 16 ^ k := by ring
    rw [e, hp, hm]
    ring

theorem allHex_toHexBE (k n : Nat) : allHex (toHexBE k n) = true := by
  induction k generalizing n with
  | zero => rfl
  | succ k ih => simp [toHexBE, allHex] at ih ⊢; exact ⟨ih _, isHexDigit_hexChar _⟩

theorem fromHexAll_toHexBE (k n : Nat) :
    fromHexAll (toHexBE k n) = some (n % 16 ^ k) := by
  rw [fromHexAll, if_pos (allHex_toHexBE k n), hexToNatAux_toHexBE]
  simp

/-- parseHexN k a cs consumes exactly k hexadecimal digits from cs,
accumulating their value onto a, and returns the value with the rest of the
input; it fails if a non-digit is met or the input runs out. -/
def parseHexN : Nat → Nat → List Char → Option (Nat × List Char)
  | 0, a, cs => some (a, cs)
  | _ + 1, _, [] => none
  | k + 1, a, c :: cs =>
      if isHexDigit c then parseHexN k (a * 16 + hexVal c) cs else none

/-- expectDash cs consumes one mandatory hyphen from the front of cs. -/
def expectDash : List Char → Option (List Char)
  | '-' :: cs => some cs
  | _ => none

/-- parseHyphenated cs parses the hyphenated UUID format 8-4-4-4-12, as the
uuid crate does for 36-character input. -/
def parseHyphenated (cs : List Char) : Option Nat :=
  (parseHexN 8 0 cs).bind fun p1 =>
  (expectDash p1.2).bind fun r1 =>
  (parseHexN 4 p1.1 r1).bind fun p2 =>
  (expectDash p2.2).bind fun r2 =>
  (parseHexN 4 p2.1 r2).bind fun p3 =>
  (expectDash p3.2).bind fun r3 =>
  (parseHexN 4 p3.1 r3).bind fun p4 =>
  (expectDash p4.2).bind fun r4 =>
  (parseHexN 12 p4.1 r4).bind fun p5 =>
  if p5.2 = [] then some p5.1 else none

/-- parseUuid models Uuid::parse_str on the two formats the service can
meet: the 32-character simple format and the 36-character hyphenated format
produced by Uuid::to_string.  Any other input fails, which in the source is
turned into a panic by unwrap. -/
def parseUuid (s : String) : Option Nat :=
  if s.data.length = 32 then fromHexAll s.data else parseHyphenated s.data

/-- uuidChars n is the hyphenated lowercase rendering of the 128-bit value
n, grouped 8-4-4-4-12, as produced by Uuid::to_string. -/
def uuidChars (n : Nat) : List Char :=
  let ds := toHexBE 32 n
  ds.take 8 ++ '-' :: ((ds.drop 8).take 4 ++ '-' :: ((ds.drop 12).take 4 ++
    '-' :: ((ds.drop 16).take 4 ++ '-' :: ds.drop 20)))

/-- uuidToString models Uuid::to_string (hyphenated lowercase). -/
def uuidToString (n : Nat) : String := ⟨uuidChars n⟩

theorem parseHexN_append (xs rest : List Char) (a : Nat)
    (hall : allHex xs = true) :
    parseHexN xs.length a (xs ++ rest) = some (hexToNatAux a xs, rest) := by
  induction xs generalizing a with
  | nil => rfl
  | cons c cs ih =>
    simp only [allHex, List.all_cons, Bool.and_eq_true] at hall
    simp only [List.length_cons, List.cons_append, parseHexN, if_pos hall.1,
      hexToNatAux]
    exact ih _ (by simpa [allHex] using hall.2)

theorem parseHexN_of_length (k : Nat) (xs rest : List Char) (a : Nat)
    (hl : xs.length = k) (hall : allHex xs = true) :
    parseHexN k a (xs ++ rest) = some (hexToNatAux a xs, rest) := by
  subst hl; exact parseHexN_append xs rest a hall

theorem allHex_take (k : Nat) (cs : List Char) (h : allHex cs = true) :
    allHex (cs.take k) = true := by
  simp only [allHex, List.all_eq_true] at h ⊢
  exact fun c hc => h c (List.mem_of_mem_take hc)

theorem allHex_drop (k : Nat) (cs : List Char) (h : allHex cs = true) :
    allHex (cs.drop k) = true := by
  simp only [allHex, List.all_eq_true] at h ⊢
  exact fun c hc => h c (List.mem_of_mem_drop hc)

theorem parseHyphenated_groups (g1 g2 g3 g4 g5 : List Char)
    (h1 : g1.length = 8) (h2 : g2.length = 4) (h3 : g3.length = 4)
    (h4 : g4.length = 4) (h5 : g5.length = 12)
    (a1 : allHex g1 = true) (a2 : allHex g2 = true) (a3 : allHex g3 = true)
    (a4 : allHex g4 = true) (a5 : allHex g5 = true) :
    parseHyphenated
      (g1 ++ '-' :: (g2 ++ '-' :: (g3 ++ '-' :: (g4 ++ '-' :: g5)))) =
      some (hexToNatAux 0 (g1 ++ (g2 ++ (g3 ++ (g4 ++ g5))))) := by
  rw [parseHyphenated, parseHexN_of_length 8 g1 _ 0 h1 a1]
  simp only [Option.some_bind, expectDash]
  rw [parseHexN_of_length 4 g2 _ _ h2 a2]
  simp only [Option.some_bind, expectDash]
  rw [parseHexN_of_length 4 g3 _ _ h3 a3]
  simp only [Option.some_bind, expectDash]
  rw [parseHexN_of_length 4 g4 _ _ h4 a4]
  simp only [Option.some_bind, expectDash]
  rw [show g5 = g5 ++ [] from (List.append_nil g5).symm,
    parseHexN_of_length 12 g5 [] _ h5 a5]
  simp [hexToNatAux_append]

theorem hexToNatAux_toHexBE_32 (n : Nat) (h : n < 2 ^ 128) :
    hexToNatAux 0 (toHexBE 32 n) = n := by
  rw [hexToNatAux_toHexBE]
  have e : (16 : Nat) ^ 32 = 2 ^ 128 := by norm_num
  rw [e, Nat.mod_eq_of_lt h]
  ring

theorem parseUuid_uuidToString (n : Nat) (h : n < 2 ^ 128) :
    parseUuid (uuidToString n) = some n := by
  have hds : (toHexBE 32 n).length = 32 := length_toHexBE 32 n
  have hall : allHex (toHexBE 32 n) = true := allHex_toHexBE 32 n
  have h1 : ((toHexBE 32 n).take 8).length = 8 := by
    simp [List.length_take, hds]
  have h2 : (((toHexBE 32 n).drop 8).take 4).length = 4 := by
    simp [List.length_take, List.length_drop, hds]
  have h3 : (((toHexBE 32 n).drop 12).take 4).length = 4 := by
    simp [List.length_take, List.length_drop, hds]
  have h4 : (((toHexBE 32 n).drop 16).take 4).length = 4 := by
    simp [List.length_take, List.length_drop, hds]
  have h5 : ((toHexBE 32 n).drop 20).length = 12 := by
    simp [List.length_drop, hds]
  have hlen : (uuidChars n).length = 36 := by
    simp only [uuidChars, List.length_append, List.length_cons, h1, h2, h3,
      h4, h5]
  have hdata : (uuidToString n).data = uuidChars n := rfl
  rw [parseUuid, hdata, if_neg (by rw [hlen]; omega)]
  rw [show uuidChars n = (toHexBE 32 n).take 8 ++ '-' ::
      (((toHexBE 32 n).drop 8).take 4 ++ '-' ::
      (((toHexBE 32 n).drop 12).take 4 ++ '-' ::
      (((toHexBE 32 n).drop 16).take 4 ++ '-' ::
      (toHexBE 32 n).drop 20))) from rfl]
  rw [parseHyphenated_groups _ _ _ _ _ h1 h2 h3 h4 h5
    (allHex_take 8 _ hall) (allHex_take 4 _ (allHex_drop 8 _ hall))
    (allHex_take 4 _ (allHex_drop 12 _ hall))
    (allHex_take 4 _ (allHex_drop 16 _ hall)) (allHex_drop 20 _ hall)]
  have d2 : ((toHexBE 32 n).drop 8).drop 4 = (toHexBE 32 n).drop 12 := by
    rw [List.drop_drop]
  have d3 : ((toHexBE 32 n).drop 12).drop 4 = (toHexBE 32 n).drop 16 := by
    rw [List.drop_drop]
  have d4 : ((toHexBE 32 n).drop 16).drop 4 = (toHexBE 32 n).drop 20 := by
    rw [List.drop_drop]
  have hcat : (toHexBE 32 n).take 8 ++ (((toHexBE 32 n).drop 8).take 4 ++
      ((((toHexBE 32 n).drop 12).take 4 ++
      ((((toHexBE 32 n).drop 16).take 4 ++ (toHexBE 32 n).drop 20))))) =
      toHexBE 32 n := by
    rw [← d4, ← d3, ← d2]
    rw [List.take_append_drop, List.take_append_drop, List.take_append_drop,
      List.take_append_drop]
  rw [hcat, hexToNatAux_toHexBE_32 n h]

/-- stripPre p s models str::strip_prefix: it removes the leading occurrence
of p from s, failing when p is not a prefix of s. -/
def stripPre : List Char → List Char → Option (List Char)
  | [], s => some s
  | _ :: _, [] => none
  | p :: ps, c :: cs => if p = c then stripPre ps cs else none

theorem stripPre_append (p s : List Char) : stripPre p (p ++ s) = some s := by
  induction p with
  | nil => rfl
  | cons c cs ih => simp [stripPre, ih]

/-- Response models the status and body of a hyper Response. -/
structure Response where
  status : Nat
  body : String
deriving DecidableEq

/-- Post mirrors the Post struct of the source: a UUID (as a 128-bit
number), a title and a content. -/
structure Post where
  id : Nat
  title : String
  content : String
deriving DecidableEq

/-- renderHello models tera rendering of the "hello" template
"Hello, \x7b\x7bname\x7d\x7d!" registered in main. -/
def renderHello (name : String) : String := "Hello, " ++ name ++ "!"

/-- renderPost models Post::render: tera rendering of the "post" template
registered in main, with the UUID serialized in its hyphenated form. -/
def renderPost (p : Post) : String :=
  "id: " ++ uuidToString p.id ++ "\ntitle: " ++ p.title ++ "\ncontent: " ++
    p.content

/-- splitAmp splits a form body at each ampersand, as the form_urlencoded
pair iterator underlying serde_urlencoded does. -/
def splitAmp : List Char → List (List Char)
  | [] => [[]]
  | c :: rest =>
    if c = '&' then [] :: splitAmp rest
    else
      match splitAmp rest with
      | [] => [[c]]
      | g :: gs => (c :: g) :: gs

/-- splitEq splits one form pair at its first equals sign; a pair without
an equals sign becomes a key with an empty value. -/
def splitEq : List Char → List Char × List Char
  | [] => ([], [])
  | c :: rest =>
    if c = '=' then ([], rest)
    else
      let (k, v) := splitEq rest
      (c :: k, v)

/-- fieldVals body key lists the values of every pair of the form body
whose key is exactly key. -/
def fieldVals (body key : List Char) : List (List Char) :=
  (splitAmp body).filterMap fun p =>
    if (splitEq p).1 = key then some (splitEq p).2 else none

/-- borrowOk v holds when v needs no percent- or plus-decoding, which is
required for serde_urlencoded to deserialize the value into a borrowed
string slice as the NewPost struct demands. -/
def borrowOk (v : List Char) : Bool := v.all fun c => !(c = '%' || c = '+')

/-- parseNewPost models serde_urlencoded::from_bytes::<NewPost>: the body
must carry exactly one title field and exactly one content field (a missing
field or a duplicate is a deserialization error), both values must be
borrowable, and unknown fields are ignored. -/
def parseNewPost (body : String) : Option (String × String) :=
  match fieldVals body.data ['t', 'i', 't', 'l', 'e'],
      fieldVals body.data ['c', 'o', 'n', 't', 'e', 'n', 't'] with
  | [t], [c] => if borrowOk t && borrowOk c then some (⟨t⟩, ⟨c⟩) else none
  | _, _ => none

/-- Ev is the alphabet of the lock-usage traces: acquiring and releasing
the connection mutex, translating a row into the Post shape inside the
row-mapping closure, and tera template rendering. -/
inductive Ev where
  | lock
  | translate
  | unlock
  | render
deriving DecidableEq

/-- find_post_i mirrors the find_post handler (source lines 48-81) and
additionally records its lock-usage trace.  The body is read, "post_id=" is
stripped (unwrap panics on failure, modelled by none), the rest is parsed
as a UUID (unwrap again), then the row is fetched under the connection
lock, the row-mapping closure building the Post runs inside the same
locked statement, the lock guard is dropped at the end of the statement,
and only then is the found post rendered; a missing row becomes a 404 with
an empty body. -/
def find_post_i (body : String) (store : List Post) :
    Option Response × List Ev :=
  match stripPre ['p', 'o', 's', 't', '_', 'i', 'd', '='] body.data with
  | none => (none, [])
  | some s =>
    match parseUuid ⟨s⟩ with
    | none => (none, [])
    | some id =>
      match store.find? (fun p => p.id == id) with
      | some p =>
          (some ⟨200, renderPost p⟩, [.lock, .translate, .unlock, .render])
      | none => (some ⟨404, ""⟩, [.lock, .unlock])

/-- find_post is the response part of the instrumented handler. -/
def find_post (body : String) (store : List Post) : Option Response :=
  (find_post_i body store).1

/-- find_post_trace is the lock-usage trace of the find_post handler. -/
def find_post_trace (body : String) (store : List Post) : List Ev :=
  (find_post_i body store).2

/-- create_post_i mirrors the create_post handler (source lines 84-108) and
additionally records its lock-usage trace.  The body is deserialized into
NewPost (unwrap panics on failure), a fresh UUID is generated (modelled as
the freshId argument, since Uuid::new_v4 is random), and the row is
inserted under the connection lock; a PRIMARY KEY collision makes execute
fail and the unwrap panic, with the lock guard still released during
unwinding.  On success the response is the generated id as text and the
store gains the new row. -/
def create_post_i (body : String) (freshId : Nat) (store : List Post) :
    Option (Response × List Post) × List Ev :=
  match parseNewPost body with
  | none => (none, [])
  | some (t, c) =>
    if store.any (fun p => p.id == freshId) then (none, [.lock, .unlock])
    else
      (some (⟨200, uuidToString freshId⟩, store ++ [⟨freshId, t, c⟩]),
        [.lock, .unlock])

/-- create_post is the response-and-store part of the instrumented
handler. -/
def create_post (body : String) (freshId : Nat) (store : List Post) :
    Option (Response × List Post) :=
  (create_post_i body freshId store).1

/-- create_post_trace is the lock-usage trace of the create_post
handler. -/
def create_post_trace (body : String) (freshId : Nat) (store : List Post) :
    List Ev :=
  (create_post_i body freshId store).2

/-- handle mirrors the handle handler (source lines 111-113): a fixed
"Hello World" response, infallible, ignoring the request. -/
def handle : Response := ⟨200, "Hello World"⟩

/-- handle_with_body mirrors the handle_with_body handler (source lines
116-147): "name=" is stripped from the body (unwrap panics on failure,
modelled by none) and the "hello" template is rendered with name bound to
the rest. -/
def handle_with_body (body : String) : Option Response :=
  match stripPre ['n', 'a', 'm', 'e', '='] body.data with
  | none => none
  | some name => some ⟨200, renderHello ⟨name⟩⟩

/-- route mirrors the router (source lines 149-167): the match arms on
(path, method) in source order.  The store is threaded through so that
create_post can extend it; handlers that never touch the store return it
unchanged.  A panicking handler propagates as none. -/
def route (method path body : String) (freshId : Nat) (store : List Post) :
    Option (Response × List Post) :=
  if path = "/" ∧ method = "GET" then
    (handle_with_body body).map fun r => (r, store)
  else if path = "/" then some (handle, store)
  else if path = "/posts" ∧ method = "POST" then
    create_post body freshId store
  else if method = "GET" ∧
      (stripPre ['/', 'p', 'o', 's', 't', 's', '/'] path.data).isSome then
    (find_post body store).map fun r => (r, store)
  else some (⟨404, ""⟩, store)

/-- lockDiscipline tr d checks, starting at lock depth d, that the trace
never re-locks a held mutex, never releases a free one, ends with the lock
released, performs row translation only while holding the lock, and never
renders a template while holding it. -/
def lockDiscipline : List Ev → Nat → Bool
  | [], d => d == 0
  | .lock :: es, 0 => lockDiscipline es 1
  | .lock :: _, _ + 1 => false
  | .unlock :: es, 1 => lockDiscipline es 0
  | .unlock :: _, _ => false
  | .render :: es, 0 => lockDiscipline es 0
  | .render :: _, _ + 1 => false
  | .translate :: es, 1 => lockDiscipline es 1
  | .translate :: _, _ => false

theorem data_append (a b : String) : (a ++ b).data = a.data ++ b.data := rfl

theorem mk_data (s : String) : String.mk s.data = s := rfl

/-- C1: the claim says GET / always returns 200 with body "Hello World"
regardless of the request body.  In the source the ("/", "GET") match arm
dispatches to handle_with_body, the templated-greeting handler, so a GET /
with body "name=World" returns "Hello, World!" instead of "Hello World";
the static-greeting handler is reached by the ("/", _) arm, i.e. by every
non-GET method. -/
theorem C1_counterexample :
    route "GET" "/" "name=World" 0 [] =
      some (⟨200, "Hello, World!"⟩, []) ∧
    ("Hello, World!" : String) ≠ "Hello World" := by
  constructor
  · decide
  · decide

/-- C1 amended: every request to path "/" whose method is not GET returns
200 with body exactly "Hello World", regardless of the request body. -/
theorem C1_amended (method body : String) (freshId : Nat)
    (store : List Post) (h : method ≠ "GET") :
    route method "/" body freshId store =
      some (⟨200, "Hello World"⟩, store) := by
  rw [route, if_neg (fun hc => h hc.2), if_pos rfl]
  rfl

theorem C1_amended_witness :
    route "DELETE" "/" "name=World" 0 [] =
      some (⟨200, "Hello World"⟩, []) :=
  C1_amended "DELETE" "name=World" 0 [] (by decide)

/-- C2: the claim says POST / with body "name=X" returns the rendered
greeting "Hello, X!".  In the source POST / falls into the ("/", _) match
arm and returns the static "Hello World"; the greeting handler sits on the
("/", "GET") arm instead. -/
theorem C2_counterexample :
    route "POST" "/" "name=World" 0 [] =
      some (⟨200, "Hello World"⟩, []) ∧
    ("Hello World" : String) ≠ "Hello, World!" := by
  constructor
  · decide
  · decide

/-- C2 amended: a request with method GET, path "/", and body "name=X"
returns 200 with body exactly the greeting template rendered with name
bound to X, i.e. "Hello, X!". -/
theorem C2_amended (X : String) (freshId : Nat) (store : List Post) :
    route "GET" "/" ("name=" ++ X) freshId store =
      some (⟨200, "Hello, " ++ X ++ "!"⟩, store) := by
  rw [route, if_pos ⟨rfl, rfl⟩, handle_with_body]
  rw [show ("name=" ++ X).data = ['n', 'a', 'm', 'e', '='] ++ X.data from
    rfl]
  rw [stripPre_append]
  rfl

/-- C3: the claim says none of the four handlers panics on any input.  The
templated-greeting handler unwraps strip_prefix: a GET / whose body lacks
the "name=" prefix makes the unwrap panic (modelled by none), so the task
dies without producing a response. -/
theorem C3_panic :
    handle_with_body "x" = none ∧ route "GET" "/" "x" 0 [] = none := by
  decide

theorem find?_append_of_none {α : Type} {p : α → Bool} {l1 l2 : List α}
    (h : l1.find? p = none) : (l1 ++ l2).find? p = l2.find? p := by
  induction l1 with
  | nil => rfl
  | cons a l ih =>
    rw [List.find?_cons] at h
    rw [List.cons_append, List.find?_cons]
    rcases hp : p a with _ | _
    · rw [hp] at h
      exact ih h
    · rw [hp] at h
      simp at h

theorem find?_none_of_miss {store : List Post} {id : Nat}
    (h : ∀ q ∈ store, q.id ≠ id) :
    store.find? (fun q => q.id == id) = none := by
  rw [List.find?_eq_none]
  intro q hq
  simpa using h q hq

/-- C4: inserting a post and immediately looking its identifier up.  The
freshId argument stands for the value drawn by Uuid::new_v4; the freshness
hypothesis models the spec's "probability of collision is treated as
negligible".  create_post answers 200 with the identifier rendered by
Uuid::to_string, that rendering parses back to the same identifier
(syntactic validity), and find_post on a body carrying it answers 200 with
the rendered record, whose text contains the submitted title and content. -/
theorem C4_roundtrip (body t c : String) (freshId : Nat)
    (store : List Post)
    (hparse : parseNewPost body = some (t, c))
    (hid : freshId < 2 ^ 128)
    (hfresh : ∀ q ∈ store, q.id ≠ freshId) :
    create_post body freshId store =
      some (⟨200, uuidToString freshId⟩, store ++ [⟨freshId, t, c⟩]) ∧
    parseUuid (uuidToString freshId) = some freshId ∧
    find_post ("post_id=" ++ uuidToString freshId)
        (store ++ [⟨freshId, t, c⟩]) =
      some ⟨200, renderPost ⟨freshId, t, c⟩⟩ ∧
    t.data.IsInfix (renderPost ⟨freshId, t, c⟩).data ∧
    c.data.IsInfix (renderPost ⟨freshId, t, c⟩).data := by
  have hany : store.any (fun q => q.id == freshId) = false := by
    rw [List.any_eq_false]
    intro q hq
    simpa using hfresh q hq
  refine ⟨?_, parseUuid_uuidToString freshId hid, ?_, ?_, ?_⟩
  · rw [create_post, create_post_i, hparse]
    simp only [hany, Bool.false_eq_true, if_false]
  · simp only [find_post, find_post_i,
      show ("post_id=" ++ uuidToString freshId).data =
        ['p', 'o', 's', 't', '_', 'i', 'd', '='] ++
          (uuidToString freshId).data from rfl,
      stripPre_append, mk_data, parseUuid_uuidToString freshId hid,
      find?_append_of_none (find?_none_of_miss hfresh)]
    simp [List.find?, find?_none_of_miss hfresh]
  · exact ⟨("id: " ++ uuidToString freshId ++ "\ntitle: ").data,
      ("\ncontent: " ++ c).data, by
        simp only [renderPost, data_append, List.append_assoc]⟩
  · exact ⟨("id: " ++ uuidToString freshId ++ "\ntitle: " ++ t ++
      "\ncontent: ").data, [], by
        simp only [renderPost, data_append, List.append_assoc,
          List.append_nil]⟩

theorem C4_roundtrip_witness :
    create_post "title=a&content=b" 5 [] =
      some (⟨200, uuidToString 5⟩, [⟨5, "a", "b"⟩]) ∧
    parseUuid (uuidToString 5) = some 5 ∧
    find_post ("post_id=" ++ uuidToString 5) [⟨5, "a", "b"⟩] =
      some ⟨200, renderPost ⟨5, "a", "b"⟩⟩ ∧
    "a".data.IsInfix (renderPost ⟨5, "a", "b"⟩).data ∧
    "b".data.IsInfix (renderPost ⟨5, "a", "b"⟩).data := by
  have h := C4_roundtrip "title=a&content=b" "a" "b" 5 [] (by decide)
    (by norm_num) (by simp)
  simpa using h

/-- C5: looking up a well-formed identifier that matches no stored record.
The store query under the lock comes back empty (the distinguished None of
rusqlite's optional, not an error), and the handler answers 404 with an
empty body. -/
theorem C5_notfound (s : String) (id : Nat) (store : List Post)
    (hid : parseUuid s = some id)
    (hmiss : ∀ q ∈ store, q.id ≠ id) :
    find_post ("post_id=" ++ s) store = some ⟨404, ""⟩ := by
  simp only [find_post, find_post_i,
    show ("post_id=" ++ s).data =
      ['p', 'o', 's', 't', '_', 'i', 'd', '='] ++ s.data from rfl,
    stripPre_append, mk_data, hid, find?_none_of_miss hmiss]

theorem C5_notfound_witness :
    find_post ("post_id=" ++ "00000000-0000-0000-0000-000000000000") [] =
      some ⟨404, ""⟩ :=
  C5_notfound "00000000-0000-0000-0000-000000000000" 0 [] (by decide)
    (by simp)

/-- C6: the claim says a malformed identifier yields a 400 response.  In
the source Uuid::parse_str's result is unwrapped, so a malformed
identifier panics the task (modelled by none) instead of producing any
response. -/
theorem C6_panic :
    find_post "post_id=zzz" [] = none ∧
    route "GET" "/posts/1" "post_id=zzz" 0 [] = none := by
  decide

/-- C7: the claim says POST / with a body lacking the "name=" prefix
returns 400.  In the source POST / falls into the ("/", _) match arm and
returns 200 with the static "Hello World" body; no 400 path exists on
POST /. -/
theorem C7_counterexample :
    route "POST" "/" "garbage" 0 [] = some (⟨200, "Hello World"⟩, []) ∧
    (200 : Nat) ≠ 400 := by
  decide

/-- C7 amended: POST / with a body lacking the "name=" prefix returns 200
with the static body "Hello World" — never a 500-class response and never
a crash. -/
theorem C7_amended (body : String) (freshId : Nat) (store : List Post)
    (_h : stripPre ['n', 'a', 'm', 'e', '='] body.data = none) :
    route "POST" "/" body freshId store =
      some (⟨200, "Hello World"⟩, store) := by
  rw [route, if_neg (fun hc => absurd hc.2 (by decide)), if_pos rfl]
  rfl

theorem C7_amended_witness :
    route "POST" "/" "garbage!" 0 [] =
      some (⟨200, "Hello World"⟩, []) :=
  C7_amended "garbage!" 0 [] (by decide)

/-- C8: the claim says every method/path combination outside the four
documented endpoints returns 404.  The ("/", _) match arm accepts every
method on "/", so e.g. DELETE / — not one of the four endpoints — returns
200 with "Hello World" instead of 404. -/
theorem C8_counterexample :
    route "DELETE" "/" "" 0 [] = some (⟨200, "Hello World"⟩, []) ∧
    (200 : Nat) ≠ 404 := by
  decide

/-- C8 amended: every request matching none of the router's arms — its
path is not "/", it is not a POST to "/posts", and it is not a GET whose
path starts with "/posts/" — returns 404 with an empty body. -/
theorem C8_amended (method path body : String) (freshId : Nat)
    (store : List Post)
    (h1 : path ≠ "/")
    (h2 : ¬(path = "/posts" ∧ method = "POST"))
    (h3 : ¬(method = "GET" ∧
      (stripPre ['/', 'p', 'o', 's', 't', 's', '/'] path.data).isSome =
        true)) :
    route method path body freshId store = some (⟨404, ""⟩, store) := by
  rw [route, if_neg (fun hc => h1 hc.1), if_neg h1, if_neg h2, if_neg h3]

theorem C8_amended_witness :
    route "GET" "/nope" "" 0 [] = some (⟨404, ""⟩, []) :=
  C8_amended "GET" "/nope" "" 0 [] (by decide) (by decide) (by decide)

/-- C9: on every execution path of the two store handlers the connection
lock is acquired at most once, held across the store operation including
the translation of the row into the Post shape, released before the
handler goes on (on the found, not-found and panic exits alike), and
template rendering only ever happens with the lock already released. -/
theorem C9_lock_discipline (body : String) (freshId : Nat)
    (store : List Post) :
    lockDiscipline (find_post_trace body store) 0 = true ∧
    lockDiscipline (create_post_trace body freshId store) 0 = true := by
  constructor
  · rw [find_post_trace]
    rcases hs : stripPre ['p', 'o', 's', 't', '_', 'i', 'd', '='] body.data
      with _ | s
    · simp [find_post_i, hs, lockDiscipline]
    · rcases hu : parseUuid ⟨s⟩ with _ | id
      · simp [find_post_i, hs, hu, lockDiscipline]
      · rcases hf : store.find? (fun p => p.id == id) with _ | p
        · simp [find_post_i, hs, hu, hf, lockDiscipline]
        · simp [find_post_i, hs, hu, hf, lockDiscipline]
  · rw [create_post_trace]
    rcases hp : parseNewPost body with _ | tc
    · simp [create_post_i, hp, lockDiscipline]
    · obtain ⟨t, c⟩ := tc
      rcases hb : store.any (fun p => p.id == freshId) with _ | _
      · simp [create_post_i, hp, hb, lockDiscipline]
      · simp [create_post_i, hp, hb, lockDiscipline]

theorem route_posts_get (s body : String) (freshId : Nat)
    (store : List Post) :
    route "GET" ("/posts/" ++ s) body freshId store =
      (find_post body store).map fun r => (r, store) := by
  have hne : ("/posts/" ++ s : String) ≠ "/" := by
    intro h
    have h2 : ('/' :: 'p' :: 'o' :: 's' :: 't' :: 's' :: '/' :: s.data) =
        ['/'] := congrArg String.data h
    simp at h2
  have hpre : (stripPre ['/', 'p', 'o', 's', 't', 's', '/']
      ("/posts/" ++ s).data).isSome = true := by
    rw [show ("/posts/" ++ s).data =
      ['/', 'p', 'o', 's', 't', 's', '/'] ++ s.data from rfl,
      stripPre_append]
    rfl
  rw [route, if_neg (fun hc => hne hc.1), if_neg hne,
    if_neg (fun hc => absurd hc.2 (by decide)), if_pos ⟨rfl, hpre⟩]

/-- C10: for GET requests under the "/posts/" prefix the responding record
is chosen only by the post_id field of the body — the router never reads
the path suffix, so two requests differing only in the suffix get the same
response against the same store. -/
theorem C10_suffix_ignored (s1 s2 body : String) (freshId : Nat)
    (store : List Post) :
    route "GET" ("/posts/" ++ s1) body freshId store =
      route "GET" ("/posts/" ++ s2) body freshId store := by
  rw [route_posts_get, route_posts_get]
